import Mathlib

/-!
Verification of the AI-tutor backend (src/main.py, src/schemas.py).

The handlers in `main.py` are embedded as pure Lean functions over an
explicit store state.  The document-store client (`database.py`: `db`,
`create_document`, `get_documents`, the collection wrapper's `find_one`,
`update_one` and `get_serializer`) is not part of the given sources, so it
is modelled from the specification's Generic Document Store Client
contract (spec section 4.3) together with standard MongoDB collection
semantics implied by the call sites.
-/

set_option autoImplicit false

/-- Document identifiers.  `native` models the store's native (ObjectId-like)
identifier, carrying its canonical string form; `str` models a plain
string-typed identifier stored as-is. -/
inductive DocId where
  | native (s : String)
  | str (s : String)
deriving DecidableEq, Repr

/-- `str(_id)` — the stringified form of an identifier. -/
def idToString : DocId → String
  | .native s => s
  | .str s => s

/-- Field values of a stored document: JSON-ish scalars, string lists
(`analogies`), timestamps (`datetime` values, modelled as `Nat`), and
identifiers. -/
inductive Val where
  | vnull
  | vstr (s : String)
  | vint (n : Int)
  | vlist (xs : List String)
  | vtime (t : Nat)
  | vid (i : DocId)
deriving DecidableEq, Repr

/-- A document is an association list from field names to values,
modelling a Python dict / BSON document. -/
abbrev Doc := List (String × Val)

/-- Dict lookup `d[k]` (first binding wins; inserts keep keys unique). -/
def getField : Doc → String → Option Val
  | [], _ => none
  | (k', v') :: rest, k => if k' = k then some v' else getField rest k

/-- Dict update `d[k] = v`: replace the binding in place, or append. -/
def setField : Doc → String → Val → Doc
  | [], k, v => [(k, v)]
  | (k', v') :: rest, k, v =>
      if k' = k then (k, v) :: rest else (k', v') :: setField rest k v

/-- Apply a MongoDB `$set` update document: set every listed field. -/
def setFields (d : Doc) (u : Doc) : Doc :=
  u.foldl (fun acc kv => setField acc kv.1 kv.2) d

/-- An equality filter document matches a stored document when every
filter field is present with the same value (MongoDB exact match). -/
def matchesFilter (f : Doc) (d : Doc) : Bool :=
  f.all (fun kv => getField d kv.1 == some kv.2)

/-- A collection is the ordered list of its documents. -/
abbrev Collection := List Doc

/-- Modelled from the spec: the collection wrapper's `find_one` — the
first document matching the filter, or none (standard MongoDB). -/
def find_one (c : Collection) (f : Doc) : Option Doc :=
  c.find? (fun d => matchesFilter f d)

/-- Modelled from the spec: the collection wrapper's
`update_one(filter, {"$set": u})` — apply the `$set` document to the
first match, leaving every other document unchanged (standard MongoDB). -/
def update_one (c : Collection) (f : Doc) (u : Doc) : Collection :=
  match c with
  | [] => []
  | d :: rest =>
      if matchesFilter f d then setFields d u :: rest
      else d :: update_one rest f u

/-- The backend's persistent state: one collection per entity schema,
the upload directory's written file paths, and the generator state for
fresh identifiers (ObjectIds / uuid4 values). -/
structure Store where
  subject : Collection
  book : Collection
  lesson : Collection
  progress : Collection
  schedule : Collection
  uploads : List String
  nextId : Nat
deriving DecidableEq, Repr

def emptyStore : Store :=
  { subject := [], book := [], lesson := [], progress := [],
    schedule := [], uploads := [], nextId := 0 }

/-- The next generated identifier (a fresh ObjectId / uuid4 value). -/
def freshId (st : Store) : DocId :=
  .native ("oid" ++ Nat.repr st.nextId)

/-- Modelled from the spec: `create_document(collection, document)` of the
database module — serializes the document, inserts it with a generated
identifier, and returns the stringified identifier (spec section 4.3). -/
def create_document (c : Collection) (d : Doc) (i : DocId) : String × Collection :=
  (idToString i, c ++ [setField d "_id" (.vid i)])

/-- Stringify a document's identifier for transport (spec section 4.3). -/
def stringifyId (d : Doc) : Doc :=
  match getField d "_id" with
  | some (.vid i) => setField d "_id" (.vstr (idToString i))
  | _ => d

/-- Modelled from the spec: `get_documents(collection, filter)` of the
database module — all matching documents as plain mappings, identifiers
stringified for transport (spec section 4.3). -/
def get_documents (c : Collection) (f : Doc) : List Doc :=
  (c.filter (fun d => matchesFilter f d)).map stringifyId

/-- Modelled from the spec: the collection wrapper's
`get_serializer().to_bson` — converts a string identifier to the store's
native identifier type, so that string ids of natively-identified records
are tolerated (spec section 4.1: "tolerating both native and string-typed
identifiers"). -/
def to_bson (s : String) : DocId := .native s

/-- `str(value)` for the values that reach it (identifiers). -/
def pyStr : Val → String
  | .vnull => "None"
  | .vstr s => s
  | .vint n => toString n
  | .vlist _ => "list"
  | .vtime t => toString t
  | .vid i => idToString i

/-- Encode an optional string the way `model_dump` serializes it. -/
def optStr : Option String → Val
  | none => .vnull
  | some s => .vstr s

/-- Encode an optional int the way `model_dump` serializes it. -/
def optInt : Option Int → Val
  | none => .vnull
  | some n => .vint n

/-- Encode an optional string list the way `model_dump` serializes it. -/
def optList : Option (List String) → Val
  | none => .vnull
  | some xs => .vlist xs

/-- Encode an optional timestamp the way `model_dump` serializes it. -/
def optTime : Option Nat → Val
  | none => .vnull
  | some t => .vtime t

/-- Python `str.lower()` (ASCII case folding). -/
def pyLower (s : String) : String :=
  String.mk (s.data.map Char.toLower)

/-- Python `str.endswith(suf)`. -/
def pyEndsWith (s suf : String) : Bool :=
  List.isSuffixOf suf.data s.data

/-- Left-to-right, non-overlapping occurrence replacement on character
lists; the fuel argument (the input's length) only makes the recursion
structural. -/
def pyReplaceAux (pat rep : List Char) : Nat → List Char → List Char
  | _, [] => []
  | 0, s => s
  | fuel + 1, c :: s' =>
      if List.isPrefixOf pat (c :: s') then
        rep ++ pyReplaceAux pat rep fuel (List.drop pat.length (c :: s'))
      else c :: pyReplaceAux pat rep fuel s'

/-- Python `str.replace(pat, rep)` for a non-empty pattern: replace every
occurrence, scanning left to right. -/
def pyReplace (s pat rep : String) : String :=
  String.mk (pyReplaceAux pat.data rep.data s.data.length s.data)

/-- `schemas.Subject`. -/
structure Subject where
  user_id : String
  name : String
  description : Option String := none
deriving DecidableEq, Repr

/-- `Subject.model_dump()`: every schema field, serialized. -/
def Subject.model_dump (s : Subject) : Doc :=
  [("user_id", .vstr s.user_id), ("name", .vstr s.name),
   ("description", optStr s.description)]

/-- `schemas.Book`. -/
structure Book where
  user_id : String
  subject_id : String
  title : String
  original_filename : Option String := none
  file_path : Option String := none
  pages : Option (List String) := none
  num_pages : Option Int := none
deriving DecidableEq, Repr

/-- `Book.model_dump()`: every schema field, serialized. -/
def Book.model_dump (b : Book) : Doc :=
  [("user_id", .vstr b.user_id), ("subject_id", .vstr b.subject_id),
   ("title", .vstr b.title), ("original_filename", optStr b.original_filename),
   ("file_path", optStr b.file_path), ("pages", optList b.pages),
   ("num_pages", optInt b.num_pages)]

/-- `schemas.LessonRequest` (`source_mode` is a string literal type). -/
structure LessonRequest where
  user_id : String
  subject_id : String
  book_id : String
  prompt : String
  source_mode : String := "lines"
  start_page : Option Int := none
  end_page : Option Int := none
  lines : Option Int := none
deriving DecidableEq, Repr

/-- `schemas.Lesson` (`status` is a string literal type, default `pending`). -/
structure Lesson where
  user_id : String
  subject_id : String
  book_id : String
  request_id : Option String := none
  prompt : String
  status : String := "pending"
  input_excerpt : Option String := none
  explanation : Option String := none
  analogies : Option (List String) := none
  error : Option String := none
  scheduled_at : Option Nat := none
deriving DecidableEq, Repr

/-- `Lesson.model_dump()`: every schema field, serialized. -/
def Lesson.model_dump (l : Lesson) : Doc :=
  [("user_id", .vstr l.user_id), ("subject_id", .vstr l.subject_id),
   ("book_id", .vstr l.book_id), ("request_id", optStr l.request_id),
   ("prompt", .vstr l.prompt), ("status", .vstr l.status),
   ("input_excerpt", optStr l.input_excerpt),
   ("explanation", optStr l.explanation),
   ("analogies", optList l.analogies), ("error", optStr l.error),
   ("scheduled_at", optTime l.scheduled_at)]

/-- `schemas.Progress`. -/
structure Progress where
  user_id : String
  subject_id : String
  book_id : String
  last_covered_page : Option Int := none
  last_covered_line : Option Int := none
  notes : Option String := none
deriving DecidableEq, Repr

/-- `Progress.model_dump()`: every schema field, serialized. -/
def Progress.model_dump (p : Progress) : Doc :=
  [("user_id", .vstr p.user_id), ("subject_id", .vstr p.subject_id),
   ("book_id", .vstr p.book_id),
   ("last_covered_page", optInt p.last_covered_page),
   ("last_covered_line", optInt p.last_covered_line),
   ("notes", optStr p.notes)]

/-- How a handler call can fail: an explicit `HTTPException` with a status
code, or an unhandled Python exception (surfacing as a framework 500). -/
inductive HandlerError where
  | http (code : Nat)
  | pyError (msg : String)
deriving DecidableEq, Repr

/-- `get_current_user_id`: returns the `X-User-Id` header value as-is. -/
def get_current_user_id (x_user_id : Option String) : Option String :=
  x_user_id

/-- Python truthiness fallback `user_id or body_user_id`: the pattern
`if not user_id: user_id = body.user_id` — `None` and the empty string
are falsy. -/
def pyOr (x : Option String) (body : String) : String :=
  match x with
  | some s => if s = "" then body else s
  | none => body

/-- `POST /api/subjects` (`create_subject` in main.py). -/
def create_subject (x_user_id : Option String) (subject : Subject) (st : Store) :
    Except HandlerError String × Store :=
  let user_id := pyOr (get_current_user_id x_user_id) subject.user_id
  if user_id = "" then (.error (.http 401), st)
  else
    let payload := setField (Subject.model_dump subject) "user_id" (.vstr user_id)
    let r := create_document st.subject payload (freshId st)
    (.ok r.1, { st with subject := r.2, nextId := st.nextId + 1 })

/-- `GET /api/subjects` (`list_subjects` in main.py). -/
def list_subjects (x_user_id : Option String) (st : Store) :
    Except HandlerError (List Doc) × Store :=
  match get_current_user_id x_user_id with
  | none => (.error (.http 401), st)
  | some u =>
      if u = "" then (.error (.http 401), st)
      else (.ok (get_documents st.subject [("user_id", .vstr u)]), st)

/-- A multipart file upload: its client-supplied filename and content. -/
structure UploadedFile where
  filename : String
  content : String
deriving DecidableEq, Repr

/-- `POST /api/books/upload` (`upload_book` in main.py).  `str(uuid.uuid4())`
and the inserted document's identifier are modelled by consecutive values
of the store's fresh-identifier generator. -/
def upload_book (user_id subject_id : String) (file : UploadedFile) (st : Store) :
    Except HandlerError (String × String) × Store :=
  if !(pyEndsWith (pyLower file.filename) ".pdf") then (.error (.http 400), st)
  else
    let book_id := idToString (freshId st)
    let st1 : Store := { st with nextId := st.nextId + 1 }
    let fname := book_id ++ "-" ++ file.filename
    let fpath := "uploads/" ++ fname
    let st2 : Store := { st1 with uploads := st1.uploads ++ [fpath] }
    let book : Book :=
      { user_id := user_id, subject_id := subject_id,
        title := pyReplace file.filename ".pdf" "",
        original_filename := some file.filename,
        file_path := some fpath, pages := none, num_pages := none }
    let r := create_document st2.book (Book.model_dump book) (freshId st2)
    (.ok (r.1, fpath), { st2 with book := r.2, nextId := st2.nextId + 1 })

/-- `POST /api/lessons` (`request_lesson` in main.py). -/
def request_lesson (x_user_id : Option String) (req : LessonRequest) (st : Store) :
    Except HandlerError (String × String) × Store :=
  let user_id := pyOr (get_current_user_id x_user_id) req.user_id
  if user_id = "" then (.error (.http 401), st)
  else
    let lesson : Lesson :=
      { user_id := user_id, subject_id := req.subject_id,
        book_id := req.book_id, prompt := req.prompt, status := "pending" }
    let r := create_document st.lesson (Lesson.model_dump lesson) (freshId st)
    (.ok (r.1, "queued"), { st with lesson := r.2, nextId := st.nextId + 1 })

/-- The upsert's lookup filter `{"user_id": u, "book_id": b}`. -/
def progressKey (u b : String) : Doc :=
  [("user_id", .vstr u), ("book_id", .vstr b)]

/-- The document written by the upsert: `payload = progress.model_dump();
payload["user_id"] = user_id`. -/
def progressPayload (u : String) (p : Progress) : Doc :=
  setField (Progress.model_dump p) "user_id" (.vstr u)

/-- `POST /api/progress` (`upsert_progress` in main.py).  `now` is the
value of `datetime.utcnow()` during the call. -/
def upsert_progress (x_user_id : Option String) (progress : Progress)
    (now : Nat) (st : Store) : Except HandlerError String × Store :=
  let user_id := pyOr (get_current_user_id x_user_id) progress.user_id
  if user_id = "" then (.error (.http 401), st)
  else
    let existing := find_one st.progress (progressKey user_id progress.book_id)
    let payload := progressPayload user_id progress
    match existing with
    | some ex =>
        match getField ex "_id" with
        | none => (.error (.pyError "KeyError"), st)
        | some idv =>
            let upd := payload ++ [("updated_at", .vtime now)]
            (.ok (pyStr idv),
             { st with progress := update_one st.progress [("_id", idv)] upd })
    | none =>
        let r := create_document st.progress payload (freshId st)
        (.ok r.1, { st with progress := r.2, nextId := st.nextId + 1 })

/-- One `{k: v}` entry of the patch's update dict, kept only when the
value is not `None` (the dict comprehension's filter). -/
def optEntry (k : String) : Option Val → Doc
  | none => []
  | some v => [(k, v)]

/-- The `updates` dict of `patch_lesson`: the five patchable fields when
provided, and always `updated_at` (never `None`). -/
def patchUpdates (status input_excerpt explanation : Option String)
    (analogies : Option (List String)) (error : Option String) (now : Nat) : Doc :=
  optEntry "status" (status.map .vstr) ++
  optEntry "input_excerpt" (input_excerpt.map .vstr) ++
  optEntry "explanation" (explanation.map .vstr) ++
  optEntry "analogies" (analogies.map .vlist) ++
  optEntry "error" (error.map .vstr) ++
  [("updated_at", .vtime now)]

/-- The two-step lookup of `patch_lesson`: find by the serializer's native
form of the id, then fall back to a plain string id match. -/
def patchFind (st : Store) (lesson_id : String) : Option Doc :=
  match find_one st.lesson [("_id", .vid (to_bson lesson_id))] with
  | some d => some d
  | none => find_one st.lesson [("_id", .vid (.str lesson_id))]

/-- `PATCH /api/lessons/{lesson_id}` (`patch_lesson` in main.py).  When the
lookup yields no document, `doc["_id"]` is evaluated on `None` and raises
`TypeError`, which surfaces as an unhandled error. -/
def patch_lesson (lesson_id : String)
    (status input_excerpt explanation : Option String)
    (analogies : Option (List String)) (error : Option String)
    (now : Nat) (st : Store) : Except HandlerError Bool × Store :=
  let doc := patchFind st lesson_id
  let updates := patchUpdates status input_excerpt explanation analogies error now
  match doc with
  | none => (.error (.pyError "TypeError"), st)
  | some d =>
      match getField d "_id" with
      | none => (.error (.pyError "KeyError"), st)
      | some idv =>
          (.ok true, { st with lesson := update_one st.lesson [("_id", idv)] updates })

/-! ### Lemmas about documents and collections -/

@[simp]
theorem getField_setField_same (d : Doc) (k : String) (v : Val) :
    getField (setField d k v) k = some v := by
  induction d with
  | nil => simp [setField, getField]
  | cons kv rest ih =>
      obtain ⟨k', v'⟩ := kv
      by_cases h : k' = k <;> simp [setField, getField, h, ih]

@[simp]
theorem getField_setField_ne (d : Doc) (k k' : String) (v : Val) (h : k ≠ k') :
    getField (setField d k v) k' = getField d k' := by
  induction d with
  | nil => simp [setField, getField, h]
  | cons kv rest ih =>
      obtain ⟨k1, v1⟩ := kv
      by_cases h1 : k1 = k <;> by_cases h2 : k1 = k' <;>
        simp_all [setField, getField]

@[simp]
theorem setFields_nil (d : Doc) : setFields d [] = d := rfl

theorem setFields_cons (d : Doc) (kv : String × Val) (u : Doc) :
    setFields d (kv :: u) = setFields (setField d kv.1 kv.2) u := rfl

theorem setFields_append (d u1 u2 : Doc) :
    setFields d (u1 ++ u2) = setFields (setFields d u1) u2 := by
  simp [setFields, List.foldl_append]

theorem getField_setFields_of_keys_ne (u : Doc) (d : Doc) (k : String)
    (h : ∀ kv ∈ u, kv.1 ≠ k) : getField (setFields d u) k = getField d k := by
  induction u generalizing d with
  | nil => rfl
  | cons kv rest ih =>
      rw [setFields_cons, ih _ (fun e he => h e (List.mem_cons_of_mem _ he)),
        getField_setField_ne _ _ _ _ (h kv (List.mem_cons_self _ _))]

theorem find_one_eq_none (c : Collection) (f : Doc)
    (h : ∀ e ∈ c, matchesFilter f e = false) : find_one c f = none := by
  rw [find_one, List.find?_eq_none]
  intro e he
  simp [h e he]

theorem find_one_append_cons (l1 l2 : List Doc) (d f : Doc)
    (h1 : ∀ e ∈ l1, matchesFilter f e = false) (hd : matchesFilter f d = true) :
    find_one (l1 ++ d :: l2) f = some d := by
  induction l1 with
  | nil => simp [find_one, List.find?_cons, hd]
  | cons a rest ih =>
      have ha := h1 a (by simp)
      have ih' := ih (fun e he => h1 e (by simp [he]))
      simpa [find_one, List.find?_cons, ha] using ih'

theorem update_one_append_cons (l1 l2 : List Doc) (d f u : Doc)
    (h1 : ∀ e ∈ l1, matchesFilter f e = false) (hd : matchesFilter f d = true) :
    update_one (l1 ++ d :: l2) f u = l1 ++ setFields d u :: l2 := by
  induction l1 with
  | nil => simp [update_one, hd]
  | cons a rest ih =>
      have ha := h1 a (by simp)
      have ih' := ih (fun e he => h1 e (by simp [he]))
      simp [update_one, ha, ih']

theorem getField_stringifyId_ne (d : Doc) (k : String) (h : k ≠ "_id") :
    getField (stringifyId d) k = getField d k := by
  unfold stringifyId
  split
  · exact getField_setField_ne _ _ _ _ (Ne.symm h)
  · rfl

theorem matchesFilter_single (k : String) (v : Val) (d : Doc) :
    matchesFilter [(k, v)] d = (getField d k == some v) := by
  simp [matchesFilter]

theorem matchesFilter_single_false (k : String) (v : Val) (d : Doc)
    (h : getField d k ≠ some v) : matchesFilter [(k, v)] d = false := by
  rw [matchesFilter_single, beq_eq_false_iff_ne]
  exact h

theorem matchesFilter_single_true (k : String) (v : Val) (d : Doc)
    (h : getField d k = some v) : matchesFilter [(k, v)] d = true := by
  simp [matchesFilter_single, h]

theorem filter_eq_nil_of_all_false (c : Collection) (f : Doc)
    (h : ∀ e ∈ c, matchesFilter f e = false) :
    c.filter (fun e => matchesFilter f e) = [] := by
  induction c with
  | nil => rfl
  | cons a rest ih =>
      rw [List.filter_cons_of_neg (by simp [h a (List.mem_cons_self a rest)])]
      exact ih (fun e he => h e (List.mem_cons_of_mem _ he))

theorem getField_setFields_single_ne (d : Doc) (k k' : String) (v : Val)
    (h : k ≠ k') : getField (setFields d [(k, v)]) k' = getField d k' :=
  getField_setField_ne d k k' v h

theorem getField_setFields_optEntry_ne (d : Doc) (k k' : String) (o : Option Val)
    (h : k ≠ k') : getField (setFields d (optEntry k o)) k' = getField d k' := by
  cases o with
  | none => rfl
  | some v => exact getField_setField_ne d k k' v h

theorem getField_setFields_optEntry_same (d : Doc) (k : String) (o : Option Val) :
    getField (setFields d (optEntry k o)) k
      = match o with | some v => some v | none => getField d k := by
  cases o with
  | none => rfl
  | some v => exact getField_setField_same d k v

theorem patchUpdates_status (d : Doc) (s ie ex : Option String)
    (an : Option (List String)) (er : Option String) (t : Nat) :
    getField (setFields d (patchUpdates s ie ex an er t)) "status"
      = match s with | some v => some (.vstr v) | none => getField d "status" := by
  unfold patchUpdates
  rw [setFields_append, setFields_append, setFields_append, setFields_append,
    setFields_append, getField_setFields_single_ne _ _ _ _ (by decide),
    getField_setFields_optEntry_ne _ _ _ _ (by decide),
    getField_setFields_optEntry_ne _ _ _ _ (by decide),
    getField_setFields_optEntry_ne _ _ _ _ (by decide),
    getField_setFields_optEntry_ne _ _ _ _ (by decide),
    getField_setFields_optEntry_same]
  cases s <;> rfl

theorem patchUpdates_input_excerpt (d : Doc) (s ie ex : Option String)
    (an : Option (List String)) (er : Option String) (t : Nat) :
    getField (setFields d (patchUpdates s ie ex an er t)) "input_excerpt"
      = match ie with | some v => some (.vstr v) | none => getField d "input_excerpt" := by
  unfold patchUpdates
  rw [setFields_append, setFields_append, setFields_append, setFields_append,
    setFields_append, getField_setFields_single_ne _ _ _ _ (by decide),
    getField_setFields_optEntry_ne _ _ _ _ (by decide),
    getField_setFields_optEntry_ne _ _ _ _ (by decide),
    getField_setFields_optEntry_ne _ _ _ _ (by decide),
    getField_setFields_optEntry_same]
  cases ie with
  | some v => rfl
  | none => exact getField_setFields_optEntry_ne _ _ _ _ (by decide)

theorem patchUpdates_explanation (d : Doc) (s ie ex : Option String)
    (an : Option (List String)) (er : Option String) (t : Nat) :
    getField (setFields d (patchUpdates s ie ex an er t)) "explanation"
      = match ex with | some v => some (.vstr v) | none => getField d "explanation" := by
  unfold patchUpdates
  rw [setFields_append, setFields_append, setFields_append, setFields_append,
    setFields_append, getField_setFields_single_ne _ _ _ _ (by decide),
    getField_setFields_optEntry_ne _ _ _ _ (by decide),
    getField_setFields_optEntry_ne _ _ _ _ (by decide),
    getField_setFields_optEntry_same]
  cases ex with
  | some v => rfl
  | none =>
      rw [getField_setFields_optEntry_ne _ _ _ _ (by decide)]
      exact getField_setFields_optEntry_ne _ _ _ _ (by decide)

theorem patchUpdates_analogies (d : Doc) (s ie ex : Option String)
    (an : Option (List String)) (er : Option String) (t : Nat) :
    getField (setFields d (patchUpdates s ie ex an er t)) "analogies"
      = match an with | some v => some (.vlist v) | none => getField d "analogies" := by
  unfold patchUpdates
  rw [setFields_append, setFields_append, setFields_append, setFields_append,
    setFields_append, getField_setFields_single_ne _ _ _ _ (by decide),
    getField_setFields_optEntry_ne _ _ _ _ (by decide),
    getField_setFields_optEntry_same]
  cases an with
  | some v => rfl
  | none =>
      rw [getField_setFields_optEntry_ne _ _ _ _ (by decide),
        getField_setFields_optEntry_ne _ _ _ _ (by decide)]
      exact getField_setFields_optEntry_ne _ _ _ _ (by decide)

theorem patchUpdates_error (d : Doc) (s ie ex : Option String)
    (an : Option (List String)) (er : Option String) (t : Nat) :
    getField (setFields d (patchUpdates s ie ex an er t)) "error"
      = match er with | some v => some (.vstr v) | none => getField d "error" := by
  unfold patchUpdates
  rw [setFields_append, setFields_append, setFields_append, setFields_append,
    setFields_append, getField_setFields_single_ne _ _ _ _ (by decide),
    getField_setFields_optEntry_same]
  cases er with
  | some v => rfl
  | none =>
      rw [getField_setFields_optEntry_ne _ _ _ _ (by decide),
        getField_setFields_optEntry_ne _ _ _ _ (by decide),
        getField_setFields_optEntry_ne _ _ _ _ (by decide)]
      exact getField_setFields_optEntry_ne _ _ _ _ (by decide)

/-! ### Claims -/

/-- C6: a `POST /api/subjects` request in which neither the `X-User-Id`
header nor the body's `user_id` yields a non-empty user id returns
status 401 and leaves the store (hence every collection) unchanged. -/
theorem create_subject_missing_user_401 (x : Option String) (subj : Subject)
    (st : Store) (hx : x = none ∨ x = some "") (hb : subj.user_id = "") :
    create_subject x subj st = (.error (.http 401), st) := by
  rcases hx with h | h <;> subst h <;>
    simp [create_subject, get_current_user_id, pyOr, hb]

theorem create_subject_missing_user_401_witness :
    create_subject none { user_id := "", name := "Chemistry" } emptyStore
      = (.error (.http 401), emptyStore) :=
  create_subject_missing_user_401 none _ emptyStore (Or.inl rfl) rfl

/-- C7 counterexample: the filename `NOTES.PDF` does not end in `.pdf`,
yet the upload is accepted — the handler does not return 400, it writes a
file to the upload directory and creates a Book record (the suffix check
in main.py lowercases the filename first). -/
theorem upload_book_pdf_suffix_cex :
    (pyEndsWith "NOTES.PDF" ".pdf") = false ∧
    (upload_book "u1" "s1" { filename := "NOTES.PDF", content := "c" } emptyStore).1
      = .ok ("oid1", "uploads/oid0-NOTES.PDF") ∧
    ((upload_book "u1" "s1" { filename := "NOTES.PDF", content := "c" }
        emptyStore).2.book).length = 1 ∧
    ((upload_book "u1" "s1" { filename := "NOTES.PDF", content := "c" }
        emptyStore).2.uploads).length = 1 := by
  refine ⟨by decide, rfl, by decide, by decide⟩

/-- C7 (amended): a `POST /api/books/upload` request whose filename's
lowercased form does not end in `.pdf` returns status 400 and leaves the
store (upload directory and Book collection included) unchanged. -/
theorem upload_book_non_pdf_rejected (u s : String) (f : UploadedFile) (st : Store)
    (h : pyEndsWith (pyLower f.filename) ".pdf" = false) :
    upload_book u s f st = (.error (.http 400), st) := by
  simp [upload_book, h]

theorem upload_book_non_pdf_rejected_witness :
    upload_book "u1" "s1" { filename := "notes.txt", content := "c" } emptyStore
      = (.error (.http 400), emptyStore) :=
  upload_book_non_pdf_rejected "u1" "s1" _ emptyStore (by decide)

/-- C8: uploading a file named `notes.pdf` with user id `u1` and subject
id `s1` succeeds and appends exactly one Book record to the book
collection, with title `notes`, user id `u1`, subject id `s1`, and both
`pages` and `num_pages` null. -/
theorem upload_notes_pdf_creates_book (content : String) (st : Store) :
    ∃ rid fpath st',
      upload_book "u1" "s1" { filename := "notes.pdf", content := content } st
        = (.ok (rid, fpath), st') ∧
      ∃ d, st'.book = st.book ++ [d] ∧
        getField d "title" = some (.vstr "notes") ∧
        getField d "user_id" = some (.vstr "u1") ∧
        getField d "subject_id" = some (.vstr "s1") ∧
        getField d "pages" = some .vnull ∧
        getField d "num_pages" = some .vnull := by
  have hc : (!(pyEndsWith (pyLower "notes.pdf") ".pdf")) = false := by decide
  simp only [upload_book, hc, Bool.false_eq_true, if_false, create_document]
  refine ⟨_, _, _, rfl, _, rfl, ?_, ?_, ?_, ?_, ?_⟩ <;>
    simp [Book.model_dump, setField, getField] <;> decide

/-- C9: a `POST /api/lessons` request with a resolvable user id appends
exactly one lesson record to the lesson collection, with status
`pending`, and responds with status `queued` and the new record's id. -/
theorem request_lesson_queued_pending (x : Option String) (req : LessonRequest)
    (st : Store) (hu : pyOr (get_current_user_id x) req.user_id ≠ "") :
    ∃ rid st',
      request_lesson x req st = (.ok (rid, "queued"), st') ∧
      ∃ d, st'.lesson = st.lesson ++ [d] ∧
        getField d "status" = some (.vstr "pending") ∧
        getField d "_id" = some (.vid (freshId st)) ∧
        rid = idToString (freshId st) := by
  simp only [request_lesson, if_neg hu, create_document]
  refine ⟨_, _, rfl, _, rfl, ?_, ?_, rfl⟩ <;>
    simp [Lesson.model_dump, setField, getField]

theorem request_lesson_queued_pending_witness :
    ∃ rid st',
      request_lesson (some "u9")
        { user_id := "", subject_id := "s9", book_id := "b9", prompt := "p" }
        emptyStore = (.ok (rid, "queued"), st') ∧
      ∃ d, st'.lesson = emptyStore.lesson ++ [d] ∧
        getField d "status" = some (.vstr "pending") ∧
        getField d "_id" = some (.vid (freshId emptyStore)) ∧
        rid = idToString (freshId emptyStore) :=
  request_lesson_queued_pending (some "u9") _ emptyStore (by decide)

/-- C5: `GET /api/subjects` called with user id `u` only ever returns
documents whose `user_id` field equals `u`. -/
theorem list_subjects_tenant_isolation (u : String) (st : Store) (hu : u ≠ "")
    (items : List Doc) (h : (list_subjects (some u) st).1 = .ok items) :
    ∀ d ∈ items, getField d "user_id" = some (.vstr u) := by
  simp [list_subjects, get_current_user_id, hu] at h
  subst h
  intro d hd
  simp only [get_documents, List.mem_map, List.mem_filter] at hd
  obtain ⟨e, ⟨he, hm⟩, rfl⟩ := hd
  have hkey : getField e "user_id" = some (.vstr u) := by
    simp [matchesFilter] at hm
    simpa using hm
  rw [getField_stringifyId_ne _ _ (by decide), hkey]

theorem list_subjects_tenant_isolation_witness :
    ("u1" : String) ≠ "" ∧
    ∀ d ∈ [[("user_id", Val.vstr "u1"), ("name", Val.vstr "n"),
            ("description", Val.vnull), ("_id", Val.vstr "oid0")]],
      getField d "user_id" = some (.vstr "u1") :=
  ⟨by decide,
   list_subjects_tenant_isolation "u1"
     { emptyStore with
        subject := [[("user_id", Val.vstr "u1"), ("name", Val.vstr "n"),
                     ("description", Val.vnull),
                     ("_id", Val.vid (DocId.native "oid0"))],
                    [("user_id", Val.vstr "u2"), ("name", Val.vstr "m"),
                     ("description", Val.vnull),
                     ("_id", Val.vid (DocId.native "oid1"))]] }
     (by decide) _ rfl⟩

/-- C3 counterexample: a `PATCH /api/lessons/{lesson_id}` call whose id
resolves to no record is not a silent no-op — on an empty lesson
collection it raises an unhandled `TypeError` (`doc["_id"]` on `None`). -/
theorem patch_lesson_missing_id_cex :
    patch_lesson "nope" (some "complete") none none none none 0 emptyStore
      = (.error (.pyError "TypeError"), emptyStore) := rfl

/-- C3 (amended): a `PATCH /api/lessons/{lesson_id}` call whose id
resolves to no record raises an unhandled `TypeError` (surfacing as a
framework 500) and modifies no record in any collection. -/
theorem patch_lesson_missing_id_raises (lid : String) (s ie ex : Option String)
    (an : Option (List String)) (er : Option String) (t : Nat) (st : Store)
    (h : patchFind st lid = none) :
    patch_lesson lid s ie ex an er t st = (.error (.pyError "TypeError"), st) := by
  simp [patch_lesson, h]

theorem patch_lesson_missing_id_raises_witness :
    patch_lesson "nope" (some "complete") none none none none 7
        { emptyStore with lesson := [[("_id", Val.vid (DocId.str "other")),
                                      ("status", Val.vstr "pending")]] }
      = (.error (.pyError "TypeError"),
         { emptyStore with lesson := [[("_id", Val.vid (DocId.str "other")),
                                       ("status", Val.vstr "pending")]] }) :=
  patch_lesson_missing_id_raises "nope" _ _ _ _ _ 7 _ (by decide)

/-- C2: `PATCH /api/lessons/{lesson_id}` on an existing, located lesson
record applies a sparse patch: each of status, input_excerpt,
explanation, analogies and error is overwritten exactly when it is
provided (non-null) in the call, and keeps its prior value when it is
absent or null. -/
theorem patch_lesson_sparse (lid : String) (s ie ex : Option String)
    (an : Option (List String)) (er : Option String) (t : Nat) (st : Store)
    (l1 l2 : List Doc) (d : Doc) (idv : Val)
    (hsplit : st.lesson = l1 ++ d :: l2)
    (hid : getField d "_id" = some idv)
    (hl1 : ∀ e ∈ l1, matchesFilter [("_id", idv)] e = false)
    (hfound : patchFind st lid = some d) :
    ∃ st', patch_lesson lid s ie ex an er t st = (.ok true, st') ∧
      st'.lesson = l1 ++ setFields d (patchUpdates s ie ex an er t) :: l2 ∧
      (getField (setFields d (patchUpdates s ie ex an er t)) "status"
        = match s with | some v => some (.vstr v) | none => getField d "status") ∧
      (getField (setFields d (patchUpdates s ie ex an er t)) "input_excerpt"
        = match ie with | some v => some (.vstr v) | none => getField d "input_excerpt") ∧
      (getField (setFields d (patchUpdates s ie ex an er t)) "explanation"
        = match ex with | some v => some (.vstr v) | none => getField d "explanation") ∧
      (getField (setFields d (patchUpdates s ie ex an er t)) "analogies"
        = match an with | some v => some (.vlist v) | none => getField d "analogies") ∧
      (getField (setFields d (patchUpdates s ie ex an er t)) "error"
        = match er with | some v => some (.vstr v) | none => getField d "error") := by
  have hm : matchesFilter [("_id", idv)] d = true := matchesFilter_single_true _ _ _ hid
  have hrun : patch_lesson lid s ie ex an er t st
      = (.ok true,
         { st with lesson :=
             update_one st.lesson [("_id", idv)] (patchUpdates s ie ex an er t) }) := by
    simp [patch_lesson, hfound, hid]
  refine ⟨_, hrun, ?_, patchUpdates_status d s ie ex an er t,
    patchUpdates_input_excerpt d s ie ex an er t,
    patchUpdates_explanation d s ie ex an er t,
    patchUpdates_analogies d s ie ex an er t,
    patchUpdates_error d s ie ex an er t⟩
  show update_one st.lesson [("_id", idv)] (patchUpdates s ie ex an er t)
      = l1 ++ setFields d (patchUpdates s ie ex an er t) :: l2
  rw [hsplit]
  exact update_one_append_cons _ _ _ _ _ hl1 hm
theorem patch_lesson_sparse_witness :
    ∃ st', patch_lesson "L1" (some "complete") none none none none 9
        { emptyStore with lesson :=
            [[("_id", Val.vid (DocId.native "L1")), ("status", Val.vstr "processing"),
              ("explanation", Val.vstr "expl"), ("analogies", Val.vlist ["a1"])]] }
        = (.ok true, st') ∧
      ∀ d ∈ st'.lesson,
        getField d "explanation" = some (.vstr "expl") ∧
        getField d "analogies" = some (.vlist ["a1"]) ∧
        getField d "status" = some (.vstr "complete") := by
  obtain ⟨st', hrun, hlesson, h1, h2, h3, h4, h5⟩ :=
    patch_lesson_sparse "L1" (some "complete") none none none none 9
      { emptyStore with lesson :=
          [[("_id", Val.vid (DocId.native "L1")), ("status", Val.vstr "processing"),
            ("explanation", Val.vstr "expl"), ("analogies", Val.vlist ["a1"])]] }
      [] []
      [("_id", Val.vid (DocId.native "L1")), ("status", Val.vstr "processing"),
       ("explanation", Val.vstr "expl"), ("analogies", Val.vlist ["a1"])]
      (Val.vid (DocId.native "L1")) rfl rfl (by simp) rfl
  refine ⟨st', hrun, ?_⟩
  rw [hlesson]
  intro d hd
  rw [List.nil_append, List.mem_singleton] at hd
  subst hd
  refine ⟨?_, ?_, ?_⟩ <;> decide

/-- C4: whether a stored lesson record's `_id` is a native identifier or
a string, a `PATCH /api/lessons/{lesson_id}` call carrying the string
form of that identifier locates the record (directly via the
serializer's native form, or via the string-id fallback) and applies the
patch to it. -/
theorem patch_lesson_locates_any_id_form (lid : String) (i : DocId)
    (s ie ex : Option String) (an : Option (List String)) (er : Option String)
    (t : Nat) (st : Store) (l1 l2 : List Doc) (d : Doc)
    (hsplit : st.lesson = l1 ++ d :: l2)
    (hid : getField d "_id" = some (.vid i))
    (hstr : idToString i = lid)
    (huniq : ∀ e, e ∈ l1 ∨ e ∈ l2 →
      getField e "_id" ≠ some (.vid (.native lid)) ∧
      getField e "_id" ≠ some (.vid (.str lid))) :
    ∃ st', patch_lesson lid s ie ex an er t st = (.ok true, st') ∧
      st'.lesson = l1 ++ setFields d (patchUpdates s ie ex an er t) :: l2 := by
  cases i with
  | native n =>
      have hn : n = lid := hstr
      subst hn
      have hm : matchesFilter [("_id", Val.vid (.native n))] d = true :=
        matchesFilter_single_true _ _ _ hid
      have hl1n : ∀ e ∈ l1, matchesFilter [("_id", Val.vid (.native n))] e = false :=
        fun e he => matchesFilter_single_false _ _ _ (huniq e (Or.inl he)).1
      have hfound : patchFind st n = some d := by
        unfold patchFind to_bson
        rw [hsplit, find_one_append_cons _ _ _ _ hl1n hm]
      have hrun : patch_lesson n s ie ex an er t st
          = (.ok true,
             { st with lesson := update_one st.lesson [("_id", Val.vid (.native n))] (patchUpdates s ie ex an er t) }) := by
        simp [patch_lesson, hfound, hid]
      refine ⟨_, hrun, ?_⟩
      show update_one st.lesson [("_id", Val.vid (.native n))] (patchUpdates s ie ex an er t)
          = l1 ++ setFields d (patchUpdates s ie ex an er t) :: l2
      rw [hsplit]
      exact update_one_append_cons _ _ _ _ _ hl1n hm
  | str q =>
      have hq : q = lid := hstr
      subst hq
      have hmd : matchesFilter [("_id", Val.vid (.native q))] d = false :=
        matchesFilter_single_false _ _ _ (by simp [hid])
      have hnone_nat : find_one st.lesson [("_id", Val.vid (.native q))] = none := by
        rw [hsplit]
        refine find_one_eq_none _ _ ?_
        intro e he
        rcases List.mem_append.mp he with h | h
        · exact matchesFilter_single_false _ _ _ (huniq e (Or.inl h)).1
        · rcases List.mem_cons.mp h with h | h
          · rw [h]; exact hmd
          · exact matchesFilter_single_false _ _ _ (huniq e (Or.inr h)).1
      have hm : matchesFilter [("_id", Val.vid (.str q))] d = true :=
        matchesFilter_single_true _ _ _ hid
      have hl1s : ∀ e ∈ l1, matchesFilter [("_id", Val.vid (.str q))] e = false :=
        fun e he => matchesFilter_single_false _ _ _ (huniq e (Or.inl he)).2
      have hfound2 : find_one st.lesson [("_id", Val.vid (.str q))] = some d := by
        rw [hsplit]
        exact find_one_append_cons _ _ _ _ hl1s hm
      have hfound : patchFind st q = some d := by
        unfold patchFind to_bson
        rw [hnone_nat]
        exact hfound2
      have hrun : patch_lesson q s ie ex an er t st
          = (.ok true,
             { st with lesson := update_one st.lesson [("_id", Val.vid (.str q))] (patchUpdates s ie ex an er t) }) := by
        simp [patch_lesson, hfound, hid]
      refine ⟨_, hrun, ?_⟩
      show update_one st.lesson [("_id", Val.vid (.str q))] (patchUpdates s ie ex an er t)
          = l1 ++ setFields d (patchUpdates s ie ex an er t) :: l2
      rw [hsplit]
      exact update_one_append_cons _ _ _ _ _ hl1s hm

theorem patch_lesson_locates_any_id_form_witness :
    ∃ st', patch_lesson "L7" none none (some "done") none none 3
        { emptyStore with lesson :=
            [[("_id", Val.vid (DocId.native "L7")), ("status", Val.vstr "pending")]] }
        = (.ok true, st') ∧
      st'.lesson
        = [setFields [("_id", Val.vid (DocId.native "L7")), ("status", Val.vstr "pending")]
            (patchUpdates none none (some "done") none none 3)] :=
  patch_lesson_locates_any_id_form "L7" (.native "L7") none none (some "done") none none 3
    { emptyStore with lesson :=
        [[("_id", Val.vid (DocId.native "L7")), ("status", Val.vstr "pending")]] }
    [] [] [("_id", Val.vid (DocId.native "L7")), ("status", Val.vstr "pending")]
    rfl rfl rfl (by rintro e (h | h) <;> simp at h)

/-- C1: two sequential `POST /api/progress` calls resolving to the same
(user_id, book_id) key, starting from a store with no record for that
key, leave exactly one Progress record for the key; the second call
overwrites the provided fields of the record created by the first,
stamps `updated_at`, and returns the existing record's id instead of
inserting a new record. -/
theorem upsert_progress_single_record (x1 x2 : Option String) (p1 p2 : Progress)
    (t1 t2 : Nat) (u : String) (st : Store)
    (hu1 : pyOr (get_current_user_id x1) p1.user_id = u)
    (hu2 : pyOr (get_current_user_id x2) p2.user_id = u)
    (hu : u ≠ "")
    (hb : p1.book_id = p2.book_id)
    (hnone : ∀ e ∈ st.progress, matchesFilter (progressKey u p2.book_id) e = false)
    (hfresh : ∀ e ∈ st.progress, getField e "_id" ≠ some (.vid (freshId st))) :
    ∃ id1 st1 id2 st2,
      upsert_progress x1 p1 t1 st = (.ok id1, st1) ∧
      upsert_progress x2 p2 t2 st1 = (.ok id2, st2) ∧
      id2 = id1 ∧
      ∃ d, st2.progress.filter (fun e => matchesFilter (progressKey u p2.book_id) e) = [d] ∧
        getField d "user_id" = some (.vstr u) ∧
        getField d "subject_id" = some (.vstr p2.subject_id) ∧
        getField d "book_id" = some (.vstr p2.book_id) ∧
        getField d "last_covered_page" = some (optInt p2.last_covered_page) ∧
        getField d "last_covered_line" = some (optInt p2.last_covered_line) ∧
        getField d "notes" = some (optStr p2.notes) ∧
        getField d "updated_at" = some (.vtime t2) := by
  have hfind1 : find_one st.progress (progressKey u p1.book_id) = none := by
    rw [hb]
    exact find_one_eq_none _ _ hnone
  have hrun1 : upsert_progress x1 p1 t1 st
      = (.ok (idToString (freshId st)),
         { st with progress := st.progress ++ [setField (progressPayload u p1) "_id" (.vid (freshId st))], nextId := st.nextId + 1 }) := by
    simp [upsert_progress, hu1, hu, hfind1, create_document]
  have hkey_nd : matchesFilter (progressKey u p2.book_id)
      (setField (progressPayload u p1) "_id" (.vid (freshId st))) = true := by
    simp [progressKey, matchesFilter, progressPayload, Progress.model_dump,
      setField, getField, hb]
  have hid_nd : getField (setField (progressPayload u p1) "_id" (.vid (freshId st))) "_id"
      = some (.vid (freshId st)) := by
    simp [progressPayload, Progress.model_dump, setField, getField]
  have hfind2 : find_one
      (st.progress ++ [setField (progressPayload u p1) "_id" (.vid (freshId st))])
      (progressKey u p2.book_id)
      = some (setField (progressPayload u p1) "_id" (.vid (freshId st))) :=
    find_one_append_cons _ _ _ _ hnone hkey_nd
  have hrun2 : upsert_progress x2 p2 t2
      { st with progress := st.progress ++ [setField (progressPayload u p1) "_id" (.vid (freshId st))], nextId := st.nextId + 1 }
      = (.ok (pyStr (.vid (freshId st))),
         { st with progress := update_one (st.progress ++ [setField (progressPayload u p1) "_id" (.vid (freshId st))]) [("_id", .vid (freshId st))] (progressPayload u p2 ++ [("updated_at", .vtime t2)]), nextId := st.nextId + 1 }) := by
    simp [upsert_progress, hu2, hu, hfind2, hid_nd]
  have hl1f : ∀ e ∈ st.progress, matchesFilter [("_id", Val.vid (freshId st))] e = false :=
    fun e he => matchesFilter_single_false _ _ _ (hfresh e he)
  have hmnd : matchesFilter [("_id", Val.vid (freshId st))]
      (setField (progressPayload u p1) "_id" (.vid (freshId st))) = true :=
    matchesFilter_single_true _ _ _ hid_nd
  have hupd : update_one
      (st.progress ++ [setField (progressPayload u p1) "_id" (.vid (freshId st))])
      [("_id", Val.vid (freshId st))]
      (progressPayload u p2 ++ [("updated_at", .vtime t2)])
      = st.progress ++ [setFields (setField (progressPayload u p1) "_id" (.vid (freshId st))) (progressPayload u p2 ++ [("updated_at", .vtime t2)])] :=
    update_one_append_cons _ _ _ _ _ hl1f hmnd
  have hkey_D : matchesFilter (progressKey u p2.book_id)
      (setFields (setField (progressPayload u p1) "_id" (.vid (freshId st))) (progressPayload u p2 ++ [("updated_at", .vtime t2)])) = true := by
    simp [progressKey, matchesFilter, progressPayload, Progress.model_dump,
      setFields, setField, getField]
  refine ⟨_, _, _, _, hrun1, hrun2, rfl, ?_⟩
  refine ⟨setFields (setField (progressPayload u p1) "_id" (.vid (freshId st))) (progressPayload u p2 ++ [("updated_at", .vtime t2)]), ?_, ?_, ?_, ?_, ?_, ?_, ?_, ?_⟩
  · show (update_one (st.progress ++ [setField (progressPayload u p1) "_id" (.vid (freshId st))]) [("_id", .vid (freshId st))] (progressPayload u p2 ++ [("updated_at", .vtime t2)])).filter (fun e => matchesFilter (progressKey u p2.book_id) e) = _
    rw [hupd, List.filter_append, filter_eq_nil_of_all_false _ _ hnone,
      List.filter_cons_of_pos (by exact hkey_D), List.filter_nil, List.nil_append]
  all_goals
    simp [progressPayload, Progress.model_dump, setFields, setField, getField]

theorem upsert_progress_single_record_witness :
    ∃ id1 st1 id2 st2,
      upsert_progress (some "u3")
        { user_id := "x", subject_id := "s3", book_id := "b3", notes := some "n1" }
        4 emptyStore = (.ok id1, st1) ∧
      upsert_progress (some "u3")
        { user_id := "y", subject_id := "s3", book_id := "b3", last_covered_page := some 5 }
        8 st1 = (.ok id2, st2) ∧
      id2 = id1 ∧
      ∃ d, st2.progress.filter (fun e => matchesFilter (progressKey "u3" "b3") e) = [d] ∧
        getField d "user_id" = some (.vstr "u3") ∧
        getField d "subject_id" = some (.vstr "s3") ∧
        getField d "book_id" = some (.vstr "b3") ∧
        getField d "last_covered_page" = some (.vint 5) ∧
        getField d "last_covered_line" = some .vnull ∧
        getField d "notes" = some .vnull ∧
        getField d "updated_at" = some (.vtime 8) :=
  upsert_progress_single_record (some "u3") (some "u3")
    { user_id := "x", subject_id := "s3", book_id := "b3", notes := some "n1" }
    { user_id := "y", subject_id := "s3", book_id := "b3", last_covered_page := some 5 }
    4 8 "u3" emptyStore rfl rfl (by decide) rfl
    (by intro e he; simp [emptyStore] at he)
    (by intro e he; simp [emptyStore] at he)

/-- C10: when the `X-User-Id` header carries a non-empty value, the
document written by `POST /api/subjects` or `POST /api/progress` (in the
insert branch and in the update branch alike) stores the header value in
`user_id`; the body's `user_id` is overwritten before the write. -/
theorem header_user_id_precedence (h : String) (hh : h ≠ "") (subj : Subject)
    (p : Progress) (t : Nat) (st : Store) :
    (∃ rid st', create_subject (some h) subj st = (.ok rid, st') ∧
      ∃ d, st'.subject = st.subject ++ [d] ∧ getField d "user_id" = some (.vstr h)) ∧
    (find_one st.progress (progressKey h p.book_id) = none →
      ∃ rid st', upsert_progress (some h) p t st = (.ok rid, st') ∧
        ∃ d, st'.progress = st.progress ++ [d] ∧ getField d "user_id" = some (.vstr h)) ∧
    (∀ l1 ex l2 idv, st.progress = l1 ++ ex :: l2 →
      getField ex "_id" = some idv →
      matchesFilter (progressKey h p.book_id) ex = true →
      (∀ e ∈ l1, matchesFilter (progressKey h p.book_id) e = false) →
      (∀ e ∈ l1, matchesFilter [("_id", idv)] e = false) →
      ∃ rid st', upsert_progress (some h) p t st = (.ok rid, st') ∧
        st'.progress = l1 ++ setFields ex (progressPayload h p ++ [("updated_at", .vtime t)]) :: l2 ∧
        getField (setFields ex (progressPayload h p ++ [("updated_at", .vtime t)])) "user_id"
          = some (.vstr h)) := by
  refine ⟨?_, ?_, ?_⟩
  · have hrun : create_subject (some h) subj st
        = (.ok (idToString (freshId st)),
           { st with subject := st.subject ++ [setField (setField (Subject.model_dump subj) "user_id" (.vstr h)) "_id" (.vid (freshId st))], nextId := st.nextId + 1 }) := by
      simp [create_subject, get_current_user_id, pyOr, hh, create_document]
    refine ⟨_, _, hrun, _, rfl, ?_⟩
    simp [Subject.model_dump, setField, getField]
  · intro hfind
    have hrun : upsert_progress (some h) p t st
        = (.ok (idToString (freshId st)),
           { st with progress := st.progress ++ [setField (progressPayload h p) "_id" (.vid (freshId st))], nextId := st.nextId + 1 }) := by
      simp [upsert_progress, get_current_user_id, pyOr, hh, hfind, create_document]
    refine ⟨_, _, hrun, _, rfl, ?_⟩
    simp [progressPayload, Progress.model_dump, setField, getField]
  · intro l1 ex l2 idv hsplit hidv hmex hl1key hl1id
    have hfind : find_one st.progress (progressKey h p.book_id) = some ex := by
      rw [hsplit]
      exact find_one_append_cons _ _ _ _ hl1key hmex
    have hrun : upsert_progress (some h) p t st
        = (.ok (pyStr idv),
           { st with progress := update_one st.progress [("_id", idv)] (progressPayload h p ++ [("updated_at", .vtime t)]) }) := by
      simp [upsert_progress, get_current_user_id, pyOr, hh, hfind, hidv]
    have hm : matchesFilter [("_id", idv)] ex = true := matchesFilter_single_true _ _ _ hidv
    refine ⟨_, _, hrun, ?_, ?_⟩
    · show update_one st.progress [("_id", idv)] (progressPayload h p ++ [("updated_at", .vtime t)])
          = l1 ++ setFields ex (progressPayload h p ++ [("updated_at", .vtime t)]) :: l2
      rw [hsplit]
      exact update_one_append_cons _ _ _ _ _ hl1id hm
    · rw [setFields_append]
      rw [getField_setFields_single_ne _ _ _ _ (by decide)]
      simp [progressPayload, Progress.model_dump, setFields, setField]

theorem header_user_id_precedence_witness :
    (∃ rid st', create_subject (some "h1") { user_id := "body", name := "n" } emptyStore
        = (.ok rid, st') ∧
      ∃ d, st'.subject = emptyStore.subject ++ [d] ∧
        getField d "user_id" = some (.vstr "h1")) ∧
    (find_one emptyStore.progress (progressKey "h1" "b9") = none →
      ∃ rid st', upsert_progress (some "h1")
          { user_id := "body2", subject_id := "s9", book_id := "b9" } 2 emptyStore
          = (.ok rid, st') ∧
        ∃ d, st'.progress = emptyStore.progress ++ [d] ∧
          getField d "user_id" = some (.vstr "h1")) ∧
    (∀ l1 ex l2 idv, emptyStore.progress = l1 ++ ex :: l2 →
      getField ex "_id" = some idv →
      matchesFilter (progressKey "h1" "b9") ex = true →
      (∀ e ∈ l1, matchesFilter (progressKey "h1" "b9") e = false) →
      (∀ e ∈ l1, matchesFilter [("_id", idv)] e = false) →
      ∃ rid st', upsert_progress (some "h1")
          { user_id := "body2", subject_id := "s9", book_id := "b9" } 2 emptyStore
          = (.ok rid, st') ∧
        st'.progress = l1 ++ setFields ex
          (progressPayload "h1" { user_id := "body2", subject_id := "s9", book_id := "b9" }
            ++ [("updated_at", .vtime 2)]) :: l2 ∧
        getField (setFields ex
          (progressPayload "h1" { user_id := "body2", subject_id := "s9", book_id := "b9" }
            ++ [("updated_at", .vtime 2)])) "user_id" = some (.vstr "h1")) :=
  header_user_id_precedence "h1" (by decide) { user_id := "body", name := "n" }
    { user_id := "body2", subject_id := "s9", book_id := "b9" } 2 emptyStore
